import Mathlib

/-!
Verification development for the weekly import-report pipeline
(`streamlit_app.py`): calendar-window computation, row filtering,
categorical remapping, count aggregation and report rendering.

Dates are embedded as integer day numbers counted from 0000-03-01 of the
proleptic Gregorian calendar (the standard civil-from-days encoding).
Day 0 (0000-03-01) is a Wednesday, so the Python `date.weekday()`
convention (Monday = 0) becomes `(n + 2) % 7`.  Calendar dates are
converted to day numbers with `daysFromCivil`.

Nullable dataframe cells are embedded as `Option` values; a pandas
dataframe column operation becomes a `List` operation.  The Python
`str()` coercions applied to cells (which turn a missing value into the
string "nan" and a parsed date into its ISO rendering) are embedded
explicitly, since the filtering behaviour depends on them.
-/

namespace ImportReport

/-- Python `date.weekday()` on day numbers: 0 = Monday … 6 = Sunday. -/
def weekday (n : Int) : Int := (n + 2) % 7

/-- Day count since 0000-03-01 for a civil date (valid for `y ≥ 1`),
the standard days-from-civil algorithm. -/
def natDaysFromCivil (y m d : Nat) : Nat :=
  let yy := if m ≤ 2 then y - 1 else y
  let era := yy / 400
  let yoe := yy - era * 400
  let mp := (m + 9) % 12
  let doy := (153 * mp + 2) / 5 + (d - 1)
  let doe := yoe * 365 + yoe / 4 - yoe / 100 + doy
  era * 146097 + doe

/-- Civil date to integer day number. -/
def daysFromCivil (y m d : Nat) : Int := Int.ofNat (natDaysFromCivil y m d)

/-- Inverse conversion: day number to (year, month, day), the standard
civil-from-days algorithm. -/
def civilFromDays (n : Nat) : Nat × Nat × Nat :=
  let era := n / 146097
  let doe := n % 146097
  let yoe := (doe - doe / 1460 + doe / 36524 - doe / 146097) / 365
  let y := yoe + era * 400
  let doy := doe - (365 * yoe + yoe / 4 - yoe / 100)
  let mp := (5 * doy + 2) / 153
  let d := doy - (153 * mp + 2) / 5 + 1
  let m := if mp < 10 then mp + 3 else mp - 9
  (if m ≤ 2 then y + 1 else y, m, d)

/-- Zero-pad a number to two digits (Python `%02d`). -/
def pad2 (n : Nat) : String := if n < 10 then "0" ++ toString n else toString n

/-- Zero-pad a number to four digits (Python `%04d`). -/
def pad4 (n : Nat) : String :=
  if n < 10 then "000" ++ toString n
  else if n < 100 then "00" ++ toString n
  else if n < 1000 then "0" ++ toString n
  else toString n

/-- Python `str()` of a `datetime.date`: the ISO rendering "YYYY-MM-DD". -/
def isoOfDays (n : Int) : String :=
  let c := civilFromDays n.toNat
  pad4 c.1 ++ "-" ++ pad2 c.2.1 ++ "-" ++ pad2 c.2.2

/-- Source: `this_week_monday = reference_date + relativedelta(weekday=MO(-1))`,
the Monday on or before the reference date. -/
def this_week_monday (d : Int) : Int := d - weekday d

/-- Source: `previous_week_window` — Monday and Sunday of the week before
the week containing the reference date.  The Python `None` default (use
the current day) is outside the embedding; the caller always supplies a
date. -/
def previous_week_window (reference_date : Int) : Int × Int :=
  let prev_monday := this_week_monday reference_date - 7
  let prev_sunday := prev_monday + 6
  (prev_monday, prev_sunday)

/-! ### Configuration tables (source lines 15–47) -/

/-- Source: `ALLOWED_IMPORTERS`. -/
def ALLOWED_IMPORTERS : List String :=
  ["Andrea Sergi", "Enrico Radaelli", "Alessia Pellegrino", "Andrea Pedroli"]

/-- Source: `BUSINESS_LINE_MAP`. -/
def BUSINESS_LINE_MAP : List (String × String) :=
  [("individuals", "Individual"),
   ("gp", "Individual"),
   ("gp gruppi", "Facility"),
   ("gipo", "Facility"),
   ("dp phone", "Facility"),
   ("clinic agenda", "Facility")]

/-- Source: `IMPORTER_SHORT`. -/
def IMPORTER_SHORT : List (String × String) :=
  [("Alessia Pellegrino", "Alessia"),
   ("Andrea Sergi", "Andrea"),
   ("Enrico Radaelli", "Enrico"),
   ("Andrea Pedroli", "Pedro")]

/-- Source: `KEEP_COLS`. -/
def KEEP_COLS : List String :=
  ["Url", "Ticket Name", "Importer", "Import Type", "Business Line", "Close Date"]

/-! ### Python string primitives -/

/-- Python `str.strip()`: drop leading and trailing whitespace. -/
def pyStrip (s : String) : String :=
  String.mk (((s.data.dropWhile Char.isWhitespace).reverse.dropWhile Char.isWhitespace).reverse)

/-- Python `str.lower()` (ASCII range, which covers every configured label). -/
def pyLower (s : String) : String := String.mk (s.data.map Char.toLower)

/-- Python `str.startswith(p)`. -/
def pyStartsWith (s p : String) : Bool := p.data.isPrefixOf s.data

/-- Python `str(cell)` for a nullable string cell: `str(nan) = "nan"`. -/
def pyStrCell : Option String → String
  | some s => s
  | none => "nan"

/-- Source line 73: `.str.replace(U+202F, " ", regex=False)` — the
pattern is the single narrow no-break space character, so the
replacement is a character map. -/
def replaceNarrowSpace (s : String) : String :=
  String.mk (s.data.map (fun c => if c = '\u202F' then ' ' else c))

/-- Naive substring test on character lists. -/
def containsSub (needle : List Char) : List Char → Bool
  | [] => needle.isEmpty
  | c :: hay => needle.isPrefixOf (c :: hay) || containsSub needle hay

/-- Substring test on strings. -/
def containsStr (needle hay : String) : Bool := containsSub needle.data hay.data

/-! ### Close Date parsing

Embedding of `pd.to_datetime(…, format="%b %d, %Y, %I:%M:%S %p",
errors="coerce")` followed by `.dt.date`: a strptime of the fixed format
(month abbreviations and the meridiem matched case-insensitively, each
format-space matching a nonempty whitespace run, numeric fields with the
CPython digit counts and ranges, the resulting date validated), returning
the parsed calendar date as a day number, or `none` on any mismatch. -/

/-- Month abbreviations of `%b`, lower-cased, with month numbers. -/
def MONTH_ABBR : List (String × Nat) :=
  [("jan", 1), ("feb", 2), ("mar", 3), ("apr", 4), ("may", 5), ("jun", 6),
   ("jul", 7), ("aug", 8), ("sep", 9), ("oct", 10), ("nov", 11), ("dec", 12)]

/-- Gregorian leap-year test. -/
def isLeapYear (y : Nat) : Bool := (y % 4 == 0 && y % 100 != 0) || y % 400 == 0

/-- Days in a month, as validated by `datetime`. -/
def daysInMonth (y m : Nat) : Nat :=
  if m = 2 then (if isLeapYear y then 29 else 28)
  else if m = 4 ∨ m = 6 ∨ m = 9 ∨ m = 11 then 30 else 31

/-- Take a leading run of decimal digits. -/
def takeDigits : List Char → List Char × List Char
  | [] => ([], [])
  | c :: cs =>
    if c.isDigit then
      let r := takeDigits cs
      (c :: r.1, r.2)
    else ([], c :: cs)

/-- Numeric value of a digit run. -/
def digitsVal (ds : List Char) : Nat :=
  ds.foldl (fun a c => a * 10 + (c.toNat - 48)) 0

/-- Drop a whitespace run. -/
def dropWS : List Char → List Char
  | [] => []
  | c :: cs => if c.isWhitespace then dropWS cs else c :: cs

/-- Require at least one whitespace character, then drop the run
(a space in a strptime format matches nonempty whitespace). -/
def expectWS1 : List Char → Option (List Char)
  | c :: cs => if c.isWhitespace then some (dropWS cs) else none
  | [] => none

/-- Require a literal character. -/
def expectChar (ch : Char) : List Char → Option (List Char)
  | c :: cs => if c = ch then some cs else none
  | [] => none

/-- Match `%b`: a three-letter month abbreviation, case-insensitively. -/
def matchMonth : List Char → Option (Nat × List Char)
  | c1 :: c2 :: c3 :: rest =>
    match MONTH_ABBR.lookup (String.mk [c1.toLower, c2.toLower, c3.toLower]) with
    | some m => some (m, rest)
    | none => none
  | _ => none

/-- Match `%p`: "AM" or "PM", case-insensitively. -/
def matchMeridiem : List Char → Option (List Char)
  | c1 :: c2 :: rest =>
    if (c1.toLower = 'a' ∨ c1.toLower = 'p') ∧ c2.toLower = 'm' then some rest else none
  | _ => none

/-- Parse the two-digit-range numeric fields of the format (1 or 2 digits,
as the CPython strptime patterns for `%d`, `%I`, `%M`, `%S` accept). -/
def parseNum2 (cs : List Char) : Option (Nat × List Char) :=
  let r := takeDigits cs
  if 1 ≤ r.1.length ∧ r.1.length ≤ 2 then some (digitsVal r.1, r.2) else none

/-- Parse the `%Y` field: exactly four digits. -/
def parseNum4 (cs : List Char) : Option (Nat × List Char) :=
  let r := takeDigits cs
  if r.1.length = 4 then some (digitsVal r.1, r.2) else none

/-- Parse the `"%b %d, %Y"` head of the format, returning year, month,
day and the remaining characters. -/
def parseDatePart (cs : List Char) : Option (Nat × Nat × Nat × List Char) :=
  match matchMonth cs with
  | none => none
  | some mr =>
  match expectWS1 mr.2 with
  | none => none
  | some r2 =>
  match parseNum2 r2 with
  | none => none
  | some dr =>
  match expectChar ',' dr.2 with
  | none => none
  | some r4 =>
  match expectWS1 r4 with
  | none => none
  | some r5 =>
  match parseNum4 r5 with
  | none => none
  | some yr => some (yr.1, mr.1, dr.1, yr.2)

/-- Parse the `", %I:%M:%S %p"` tail of the format, validating the field
ranges (`%I` in 1..12, minutes and seconds at most 59, as the `datetime`
constructor enforces), returning the remaining characters. -/
def parseTimePart (cs : List Char) : Option (List Char) :=
  match expectChar ',' cs with
  | none => none
  | some r1 =>
  match expectWS1 r1 with
  | none => none
  | some r2 =>
  match parseNum2 r2 with
  | none => none
  | some hr =>
  match expectChar ':' hr.2 with
  | none => none
  | some r4 =>
  match parseNum2 r4 with
  | none => none
  | some mr =>
  match expectChar ':' mr.2 with
  | none => none
  | some r6 =>
  match parseNum2 r6 with
  | none => none
  | some sr =>
  match expectWS1 sr.2 with
  | none => none
  | some r8 =>
  match matchMeridiem r8 with
  | none => none
  | some r9 =>
  if 1 ≤ hr.1 ∧ hr.1 ≤ 12 ∧ mr.1 ≤ 59 ∧ sr.1 ≤ 59 then some r9 else none

/-- Parse a Close Date string in the format `"%b %d, %Y, %I:%M:%S %p"`,
returning the calendar date (time of day discarded, as `.dt.date` does)
or `none` when the string does not match or the date is invalid. -/
def parseCloseDate (s : String) : Option Int :=
  match parseDatePart s.data with
  | none => none
  | some ymdr =>
  match parseTimePart ymdr.2.2.2 with
  | none => none
  | some rest =>
    if rest = [] ∧ 1 ≤ ymdr.1 ∧ ymdr.1 ≤ 9999 ∧
        1 ≤ ymdr.2.2.1 ∧ ymdr.2.2.1 ≤ daysInMonth ymdr.1 ymdr.2.1 then
      some (daysFromCivil ymdr.1 ymdr.2.1 ymdr.2.2.1)
    else none

/-- Source line 72–76 applied to one cell: `astype(str)`, narrow-space
normalization, strptime with coercion to null, date extraction. -/
def parseCloseDateCell (c : Option String) : Option Int :=
  parseCloseDate (replaceNarrowSpace (pyStrCell c))

/-! ### Row types and the filter -/

/-- One row of the raw CRM export, restricted to the six kept columns;
every cell is nullable. -/
structure RawRow where
  url : Option String
  ticketName : Option String
  importer : Option String
  importType : Option String
  businessLine : Option String
  closeDate : Option String
deriving DecidableEq

/-- A raw row after the Close Date column has been parsed (source
lines 72–76). -/
structure ParsedRow where
  url : Option String
  ticketName : Option String
  importer : Option String
  importType : Option String
  businessLine : Option String
  closeDate : Option Int
deriving DecidableEq

/-- A surviving row with the two derived columns appended (source
lines 84–85). -/
structure FilteredRow where
  url : Option String
  ticketName : Option String
  importer : Option String
  importType : Option String
  businessLine : Option String
  closeDate : Option Int
  bl_cat : String
  importerShort : Option String
deriving DecidableEq

/-- Source: `business_line_cat` — normalize with `str(…).strip().lower()`
and look up, defaulting to "Individual". -/
def business_line_cat (raw_bl : String) : String :=
  (BUSINESS_LINE_MAP.lookup (pyLower (pyStrip raw_bl))).getD "Individual"

/-- The function `business_line_cat` applied to a nullable cell: Python first coerces
with `str()`, so a missing value becomes the string "nan". -/
def business_line_cat_cell (c : Option String) : String :=
  business_line_cat (pyStrCell c)

/-- Parse the Close Date column of one row. -/
def parseRow (r : RawRow) : ParsedRow :=
  { url := r.url, ticketName := r.ticketName, importer := r.importer,
    importType := r.importType, businessLine := r.businessLine,
    closeDate := parseCloseDateCell r.closeDate }

/-- Source line 79: `df["Close Date"].between(start, end, inclusive="both")`;
a null date never lies in any range. -/
def mask_period (s e : Int) (r : ParsedRow) : Bool :=
  match r.closeDate with
  | some d => decide (s ≤ d) && decide (d ≤ e)
  | none => false

/-- Source line 80: `df["Import Type"].str.startswith(("Complete", "No Importation"), na=False)`. -/
def mask_type (r : ParsedRow) : Bool :=
  match r.importType with
  | some t => pyStartsWith t "Complete" || pyStartsWith t "No Importation"
  | none => false

/-- Source line 81: `df["Importer"].isin(ALLOWED_IMPORTERS)`; a null
importer is in no set. -/
def mask_imp (r : ParsedRow) : Bool :=
  match r.importer with
  | some i => decide (i ∈ ALLOWED_IMPORTERS)
  | none => false

/-- Source lines 84–85: append `BL_CAT` (via `business_line_cat`) and
`ImporterShort` (via `Series.map`, which sends a missing key or a null
name to null). -/
def finalizeRow (r : ParsedRow) : FilteredRow :=
  { url := r.url, ticketName := r.ticketName, importer := r.importer,
    importType := r.importType, businessLine := r.businessLine,
    closeDate := r.closeDate,
    bl_cat := business_line_cat_cell r.businessLine,
    importerShort :=
      match r.importer with
      | some i => IMPORTER_SHORT.lookup i
      | none => none }

/-- Source lines 78–86: window resolution, the three masks, the stable
row filter, and the two derived columns, applied to an already
date-parsed table. -/
def filter_stage (dfp : List ParsedRow) (reference_date : Int) : List FilteredRow :=
  let s := (previous_week_window reference_date).1
  let e := (previous_week_window reference_date).2
  (dfp.filter (fun r => mask_period s e r && mask_type r && mask_imp r)).map finalizeRow

/-- Source: `load_and_filter` — column subset (implicit in the row type),
Close Date parsing, filters and derived columns. -/
def load_and_filter (df : List RawRow) (reference_date : Int) : List FilteredRow :=
  filter_stage (df.map parseRow) reference_date

/-! ### Report composition (source lines 89–171) -/

/-- Source line 94: `len(df)`. -/
def tot_total (df : List FilteredRow) : Nat := df.length

/-- Source line 92: `value_counts().get("Facility", 0)`. -/
def facilityCount (df : List FilteredRow) : Nat :=
  (df.filter (fun r => r.bl_cat == "Facility")).length

/-- Source line 93: `value_counts().get("Individual", 0)`. -/
def individualCount (df : List FilteredRow) : Nat :=
  (df.filter (fun r => r.bl_cat == "Individual")).length

/-- Source lines 96–98: `value_counts().reindex([…], fill_value=0)` for
one alias (`value_counts` ignores null cells; a missing alias counts 0). -/
def impCount (df : List FilteredRow) (a : String) : Nat :=
  (df.filter (fun r => r.importerShort == some a)).length

/-- The (Ticket Name, Url) pairs of facility rows, nulls dropped
(source line 100–102: the Facility selection, the two-column projection
and `dropna()`), in table order. -/
def facPre (df : List FilteredRow) : List (String × String) :=
  (df.filter (fun r => r.bl_cat == "Facility")).filterMap
    (fun r =>
      match r.ticketName, r.url with
      | some n, some u => some (n, u)
      | _, _ => none)

/-- Source line 103: `drop_duplicates(subset="Url")` — keep the first
occurrence of each URL, dropping later repeats. -/
def dedupByUrl : List (String × String) → List String → List (String × String)
  | [], _ => []
  | p :: rest, seen =>
    if p.2 ∈ seen then dedupByUrl rest seen
    else p :: dedupByUrl rest (p.2 :: seen)

/-- Source lines 100–105: facility links, de-duplicated by URL and
sorted by Ticket Name. -/
def fac_df (df : List FilteredRow) : List (String × String) :=
  List.insertionSort (fun a b : String × String => a.1 ≤ b.1)
    (dedupByUrl (facPre df) [])

/-- Python `html.escape` with its default quoting. -/
def htmlEscape (s : String) : String :=
  String.join (s.data.map (fun c =>
    if c = '&' then "&amp;"
    else if c = '<' then "&lt;"
    else if c = '>' then "&gt;"
    else if c = '"' then "&quot;"
    else if c = Char.ofNat 39 then "&#x27;"
    else String.mk [c]))

/-- Source lines 107–111: the Markdown link list or its placeholder. -/
def links_md (df : List FilteredRow) : String :=
  if fac_df df = [] then "_Nessuna facility questa settimana_"
  else String.intercalate "\n"
    ((fac_df df).map (fun p => "- [" ++ p.1 ++ "](" ++ p.2 ++ ")"))

/-- Source lines 107–114: the HTML link list or its placeholder. -/
def links_html (df : List FilteredRow) : String :=
  if fac_df df = [] then "<em>Nessuna facility questa settimana</em>"
  else "<ul>" ++ String.join
    ((fac_df df).map (fun p =>
      "<li><a href=\"" ++ htmlEscape p.2 ++ "\">" ++ htmlEscape p.1 ++ "</a></li>"))
    ++ "</ul>"

/-- Source lines 116–139: the plain/Markdown message template. -/
def plain_msg (df : List FilteredRow) : String :=
  "Ciao Luisa,\ndi seguito gli import di questa settimana. Sono stati fatti "
  ++ toString (tot_total df) ++ " import così divisi:\n\nBusiness Line\tVolumi\nFacility\t"
  ++ toString (facilityCount df) ++ "\nIndividual\t" ++ toString (individualCount df)
  ++ "\nTotale complessivo\t" ++ toString (tot_total df)
  ++ "\n\n*Il dato relativo alle Facility comprende anche le Cliniche GP, GIPO e DPP.*\n\n"
  ++ "Di seguito le lavorazioni suddivise per importer:\n\nImporter\tVolumi\nAlessia\t"
  ++ toString (impCount df "Alessia") ++ "\nAndrea\t" ++ toString (impCount df "Andrea")
  ++ "\nEnrico\t" ++ toString (impCount df "Enrico") ++ "\nPedro\t"
  ++ toString (impCount df "Pedro") ++ "\nTotale complessivo\t" ++ toString (tot_total df)
  ++ "\n\nDi seguito i link delle cliniche (sia CRM che GIPO che Gruppi GP che Cliniche DPP) interessate:\n\n"
  ++ links_md df ++ "\n"

/-- Source lines 141–170: the HTML message template. -/
def html_msg (df : List FilteredRow) : String :=
  "<p>Ciao Luisa,</p>\n\n<p>di seguito gli import di questa settimana.<br>\nSono stati fatti <strong>"
  ++ toString (tot_total df) ++ "</strong> import così divisi:</p>\n\n"
  ++ "<table border=\"1\" cellspacing=\"0\" cellpadding=\"4\">\n  <tr><th>Business Line</th><th>Volumi</th></tr>\n  <tr><td>Facility</td><td>"
  ++ toString (facilityCount df) ++ "</td></tr>\n  <tr><td>Individual</td><td>"
  ++ toString (individualCount df)
  ++ "</td></tr>\n  <tr><td><strong>Totale complessivo</strong></td><td><strong>"
  ++ toString (tot_total df) ++ "</strong></td></tr>\n</table>\n\n"
  ++ "<p><em>Il dato relativo alle Facility comprende anche le Cliniche GP, GIPO e DPP.</em></p>\n\n"
  ++ "<p>Di seguito le lavorazioni suddivise per importer:</p>\n\n"
  ++ "<table border=\"1\" cellspacing=\"0\" cellpadding=\"4\">\n  <tr><th>Importer</th><th>Volumi</th></tr>\n  <tr><td>Alessia</td><td>"
  ++ toString (impCount df "Alessia") ++ "</td></tr>\n  <tr><td>Andrea</td><td>"
  ++ toString (impCount df "Andrea") ++ "</td></tr>\n  <tr><td>Enrico</td><td>"
  ++ toString (impCount df "Enrico") ++ "</td></tr>\n  <tr><td>Pedro</td><td>"
  ++ toString (impCount df "Pedro")
  ++ "</td></tr>\n  <tr><td><strong>Totale complessivo</strong></td><td><strong>"
  ++ toString (tot_total df) ++ "</strong></td></tr>\n</table>\n\n"
  ++ "<p>Di seguito i link delle cliniche (sia CRM che GIPO che Gruppi GP che Cliniche DPP) interessate:</p>\n\n"
  ++ links_html df ++ "\n"

/-- Source: `build_messages` — the pair of rendered messages. -/
def build_messages (df : List FilteredRow) : String × String :=
  (plain_msg df, html_msg df)

/-! ### Conversions used by the idempotence claim -/

/-- The six kept columns of a filtered row, with the Close Date carried
as the parsed calendar date. -/
def toParsed (r : FilteredRow) : ParsedRow :=
  { url := r.url, ticketName := r.ticketName, importer := r.importer,
    importType := r.importType, businessLine := r.businessLine,
    closeDate := r.closeDate }

/-- The six kept columns of a filtered row as raw cells, with each cell
stringified the way a second `load_and_filter` pass would see it: the
Close Date column holds `datetime.date` values, so `astype(str)` renders
them in ISO format (and a null date as "NaT"). -/
def toRawStr (r : FilteredRow) : RawRow :=
  { url := r.url, ticketName := r.ticketName, importer := r.importer,
    importType := r.importType, businessLine := r.businessLine,
    closeDate :=
      match r.closeDate with
      | some d => some (isoOfDays d)
      | none => some "NaT" }

/-! ### Heap model of dataframe aliasing (for the no-mutation claim)

To settle whether `load_and_filter` mutates its caller's dataframe, the
dataframe store is made explicit: a heap of frames (column-oriented,
each column a list of cells), a reference into the heap, and the source
statements of lines 69–86 replayed one by one.  Operations that pandas
documents as returning a new frame (`df[cols]`, `.copy()`, boolean-mask
selection with `reset_index`) allocate at the end of the heap; column
assignments (`df[c] = …`) mutate the frame their reference points to. -/

/-- A dataframe cell: a string, a parsed date, or null. -/
inductive Cell where
  | str : String → Cell
  | date : Int → Cell
  | null : Cell
deriving DecidableEq

/-- A frame is an association list from column name to column values. -/
abbrev Frame := List (String × List Cell)

/-- The heap of live frames; a dataframe value is an index into it. -/
abbrev Heap := List Frame

/-- Length of a heap (number of live frames). -/
def Heap.size (h : Heap) : Nat := List.length h

/-- Frame lookup in a heap. -/
def Heap.read (h : Heap) (i : Nat) : Option Frame := h[i]?

/-- Column of a frame (empty when absent; the schema-error path is not
modelled here). -/
def Frame.getCol (f : Frame) (c : String) : List Cell :=
  (List.lookup c f).getD []

/-- In-place column assignment: replace the column if present, else
append it. -/
def Frame.setCol : Frame → String → List Cell → Frame
  | [], c, v => [(c, v)]
  | cv :: rest, c, v =>
    if cv.1 = c then (c, v) :: rest else cv :: Frame.setCol rest c v

/-- Python `str(cell)` as `astype(str)` applies it: a string is itself, a
date renders in ISO format, a null becomes "nan". -/
def cellStr : Cell → String
  | .str s => s
  | .date n => isoOfDays n
  | .null => "nan"

/-- Keep the column entries whose mask bit is true (`df[mask]`). -/
def applyMask (mask : List Bool) (col : List Cell) : List Cell :=
  (col.zip mask).filterMap (fun p => if p.2 then some p.1 else none)

/-- Pointwise conjunction of two masks. -/
def andMask (a b : List Bool) : List Bool := List.zipWith and a b

/-- Source lines 69–86 with the dataframe store explicit.  Takes the
heap and the caller's frame reference, returns the heap after the call
and the reference to the returned frame. -/
def load_and_filter_heap (h : Heap) (df : Nat) (reference_date : Int) : Heap × Nat :=
  let f0 := (Heap.read h df).getD []
  -- line 69, `df[KEEP_COLS]`: a fresh projected frame
  let h1 := h ++ [KEEP_COLS.map (fun c => (c, Frame.getCol f0 c))]
  let t1 := Heap.size h
  -- line 69, `.copy()`: a fresh duplicate, bound to the local name
  let h2 := h1 ++ [(Heap.read h1 t1).getD []]
  let t2 := Heap.size h1
  -- lines 72–76: parse the Close Date column in place on the copy
  let f2 := (Heap.read h2 t2).getD []
  let parsedCol := (Frame.getCol f2 "Close Date").map (fun c =>
    match parseCloseDate (replaceNarrowSpace (cellStr c)) with
    | some n => Cell.date n
    | none => Cell.null)
  let h3 := h2.set t2 (Frame.setCol f2 "Close Date" parsedCol)
  -- lines 78–82: the window and the three masks
  let f3 := (Heap.read h3 t2).getD []
  let s := (previous_week_window reference_date).1
  let e := (previous_week_window reference_date).2
  let maskP := (Frame.getCol f3 "Close Date").map (fun c =>
    match c with
    | .date n => decide (s ≤ n) && decide (n ≤ e)
    | _ => false)
  let maskT := (Frame.getCol f3 "Import Type").map (fun c =>
    match c with
    | .str t => pyStartsWith t "Complete" || pyStartsWith t "No Importation"
    | _ => false)
  let maskI := (Frame.getCol f3 "Importer").map (fun c =>
    match c with
    | .str i => decide (i ∈ ALLOWED_IMPORTERS)
    | _ => false)
  let mask := andMask maskP (andMask maskT maskI)
  -- line 83, `df[mask].reset_index(drop=True)`: a fresh reduced frame
  let h4 := h3 ++ [f3.map (fun cv => (cv.1, applyMask mask cv.2))]
  let t4 := Heap.size h3
  -- line 84: append BL_CAT in place
  let f4 := (Heap.read h4 t4).getD []
  let h5 := h4.set t4 (Frame.setCol f4 "BL_CAT"
    ((Frame.getCol f4 "Business Line").map (fun c => Cell.str (business_line_cat (cellStr c)))))
  -- line 85: append ImporterShort in place
  let f5 := (Heap.read h5 t4).getD []
  let h6 := h5.set t4 (Frame.setCol f5 "ImporterShort"
    ((Frame.getCol f5 "Importer").map (fun c =>
      match c with
      | .str i =>
        match List.lookup i IMPORTER_SHORT with
        | some a => Cell.str a
        | none => Cell.null
      | _ => Cell.null)))
  (h6, t4)

example : daysFromCivil 2025 7 14 = 739751 := by decide
example : weekday (daysFromCivil 2025 7 14) = 0 := by decide
example : parseCloseDate "Jul 14, 2025, 04:20:01 PM" = some (daysFromCivil 2025 7 14) := by decide
example : parseCloseDate "Jul 14, 2025, 04:20:01\u202FPM" = none := by decide
example : parseCloseDateCell (some "Jul 14, 2025, 04:20:01\u202FPM") = some (daysFromCivil 2025 7 14) := by decide
example : parseCloseDate "2025-07-14" = none := by decide
example : parseCloseDate "nan" = none := by decide
example : parseCloseDate "Feb 30, 2025, 04:20:01 PM" = none := by decide
example : parseCloseDate "Feb 29, 2024, 12:00:00 am" = some (daysFromCivil 2024 2 29) := by decide
example : isoOfDays (daysFromCivil 2025 7 9) = "2025-07-09" := by decide
example : business_line_cat "  GIPO " = "Facility" := by decide
example : business_line_cat "" = "Individual" := by decide

/-! ### Helper lemmas -/

/-- The business-line lookup, fully cased on the six configured keys. -/
lemma lookup_bl_cases (k : String) :
    (BUSINESS_LINE_MAP.lookup k).getD "Individual" =
      if k = "gp gruppi" ∨ k = "gipo" ∨ k = "dp phone" ∨ k = "clinic agenda"
      then "Facility" else "Individual" := by
  by_cases h1 : k = "individuals"
  · subst h1; decide
  by_cases h2 : k = "gp"
  · subst h2; decide
  by_cases h3 : k = "gp gruppi"
  · subst h3; decide
  by_cases h4 : k = "gipo"
  · subst h4; decide
  by_cases h5 : k = "dp phone"
  · subst h5; decide
  by_cases h6 : k = "clinic agenda"
  · subst h6; decide
  have e1 : (k == "individuals") = false := beq_eq_false_iff_ne.mpr h1
  have e2 : (k == "gp") = false := beq_eq_false_iff_ne.mpr h2
  have e3 : (k == "gp gruppi") = false := beq_eq_false_iff_ne.mpr h3
  have e4 : (k == "gipo") = false := beq_eq_false_iff_ne.mpr h4
  have e5 : (k == "dp phone") = false := beq_eq_false_iff_ne.mpr h5
  have e6 : (k == "clinic agenda") = false := beq_eq_false_iff_ne.mpr h6
  simp [BUSINESS_LINE_MAP, List.lookup, e1, e2, e3, e4, e5, e6, h3, h4, h5, h6]

/-- Rewriting `business_line_cat` in terms of the normalized key. -/
lemma business_line_cat_eq (s : String) :
    business_line_cat s =
      if pyLower (pyStrip s) = "gp gruppi" ∨ pyLower (pyStrip s) = "gipo" ∨
          pyLower (pyStrip s) = "dp phone" ∨ pyLower (pyStrip s) = "clinic agenda"
      then "Facility" else "Individual" := by
  unfold business_line_cat
  exact lookup_bl_cases _

/-- The function `business_line_cat` only ever produces the two categories. -/
lemma business_line_cat_two (s : String) :
    business_line_cat s = "Facility" ∨ business_line_cat s = "Individual" := by
  rw [business_line_cat_eq]
  split
  · exact Or.inl rfl
  · exact Or.inr rfl

/-- Every row of the filter output is `finalizeRow` of a parsed row that
passes all three masks. -/
lemma mem_load_and_filter {df : List RawRow} {ref : Int} {r : FilteredRow}
    (h : r ∈ load_and_filter df ref) :
    ∃ p : ParsedRow,
      mask_period (previous_week_window ref).1 (previous_week_window ref).2 p = true
      ∧ mask_type p = true ∧ mask_imp p = true ∧ r = finalizeRow p := by
  unfold load_and_filter filter_stage at h
  simp only [List.mem_map, List.mem_filter, Bool.and_eq_true] at h
  obtain ⟨p, ⟨_, hmask⟩, hr⟩ := h
  exact ⟨p, hmask.1.1, hmask.1.2, hmask.2, hr.symm⟩

/-- A true period mask yields a parsed date inside the window. -/
lemma mask_period_spec {s e : Int} {p : ParsedRow} (h : mask_period s e p = true) :
    ∃ d, p.closeDate = some d ∧ s ≤ d ∧ d ≤ e := by
  unfold mask_period at h
  cases hc : p.closeDate with
  | none => rw [hc] at h; exact absurd h (by simp)
  | some d =>
    rw [hc] at h
    simp only [Bool.and_eq_true, decide_eq_true_eq] at h
    exact ⟨d, rfl, h.1, h.2⟩

/-- A true type mask yields an Import Type with one of the two prefixes. -/
lemma mask_type_spec {p : ParsedRow} (h : mask_type p = true) :
    ∃ t, p.importType = some t ∧
      (pyStartsWith t "Complete" = true ∨ pyStartsWith t "No Importation" = true) := by
  unfold mask_type at h
  cases hc : p.importType with
  | none => rw [hc] at h; exact absurd h (by simp)
  | some t =>
    rw [hc] at h
    simp only [Bool.or_eq_true] at h
    exact ⟨t, rfl, h⟩

/-- A true importer mask yields an allow-listed importer. -/
lemma mask_imp_spec {p : ParsedRow} (h : mask_imp p = true) :
    ∃ i, p.importer = some i ∧ i ∈ ALLOWED_IMPORTERS := by
  unfold mask_imp at h
  cases hc : p.importer with
  | none => rw [hc] at h; exact absurd h (by simp)
  | some i =>
    rw [hc] at h
    exact ⟨i, rfl, of_decide_eq_true h⟩

/-- The category column of every output row is one of the two categories. -/
lemma out_bl_cat {df : List RawRow} {ref : Int} {r : FilteredRow}
    (h : r ∈ load_and_filter df ref) :
    r.bl_cat = "Facility" ∨ r.bl_cat = "Individual" := by
  obtain ⟨p, _, _, _, rfl⟩ := mem_load_and_filter h
  exact business_line_cat_two _

/-- The alias column of every output row is one of the four aliases. -/
lemma out_importerShort {df : List RawRow} {ref : Int} {r : FilteredRow}
    (h : r ∈ load_and_filter df ref) :
    r.importerShort = some "Alessia" ∨ r.importerShort = some "Andrea" ∨
      r.importerShort = some "Enrico" ∨ r.importerShort = some "Pedro" := by
  obtain ⟨p, _, _, hI, rfl⟩ := mem_load_and_filter h
  obtain ⟨i, hi, hmem⟩ := mask_imp_spec hI
  have hshort : (finalizeRow p).importerShort = IMPORTER_SHORT.lookup i := by
    unfold finalizeRow
    rw [hi]
  simp only [ALLOWED_IMPORTERS, List.mem_cons, List.not_mem_nil, or_false] at hmem
  rcases hmem with rfl | rfl | rfl | rfl
  · exact Or.inr (Or.inl (by rw [hshort]; rfl))
  · exact Or.inr (Or.inr (Or.inl (by rw [hshort]; rfl)))
  · exact Or.inl (by rw [hshort]; rfl)
  · exact Or.inr (Or.inr (Or.inr (by rw [hshort]; rfl)))

/-- Two complementary categories partition the row count. -/
lemma two_filter_length (l : List FilteredRow)
    (h : ∀ r ∈ l, r.bl_cat = "Facility" ∨ r.bl_cat = "Individual") :
    facilityCount l + individualCount l = tot_total l := by
  induction l with
  | nil => rfl
  | cons x t ih =>
    have hx := h x (List.mem_cons_self x t)
    have ht := ih (fun r hr => h r (List.mem_cons_of_mem x hr))
    unfold facilityCount individualCount tot_total at ht ⊢
    rcases hx with hx | hx
    · have bf : (x.bl_cat == "Facility") = true := by rw [hx]; decide
      have bi : (x.bl_cat == "Individual") = false := by rw [hx]; decide
      simp only [List.filter_cons, bf, bi, List.length_cons, if_true, if_false]
      simp only [Bool.false_eq_true, if_false, List.length_cons]
      omega
    · have bf : (x.bl_cat == "Facility") = false := by rw [hx]; decide
      have bi : (x.bl_cat == "Individual") = true := by rw [hx]; decide
      simp only [List.filter_cons, bf, bi, List.length_cons, if_true, if_false]
      simp only [Bool.false_eq_true, if_false, List.length_cons]
      omega

/-- The four alias counts partition the row count. -/
lemma four_filter_length (l : List FilteredRow)
    (h : ∀ r ∈ l, r.importerShort = some "Alessia" ∨ r.importerShort = some "Andrea" ∨
          r.importerShort = some "Enrico" ∨ r.importerShort = some "Pedro") :
    impCount l "Alessia" + impCount l "Andrea" + impCount l "Enrico" + impCount l "Pedro"
      = tot_total l := by
  induction l with
  | nil => rfl
  | cons x t ih =>
    have hx := h x (List.mem_cons_self x t)
    have ht := ih (fun r hr => h r (List.mem_cons_of_mem x hr))
    unfold impCount tot_total at ht ⊢
    rcases hx with hx | hx | hx | hx <;>
      [(have b1 : (x.importerShort == some "Alessia") = true := by rw [hx]; decide;
        have b2 : (x.importerShort == some "Andrea") = false := by rw [hx]; decide;
        have b3 : (x.importerShort == some "Enrico") = false := by rw [hx]; decide;
        have b4 : (x.importerShort == some "Pedro") = false := by rw [hx]; decide;
        simp only [List.filter_cons, b1, b2, b3, b4, List.length_cons, if_true, if_false]);
       (have b1 : (x.importerShort == some "Alessia") = false := by rw [hx]; decide;
        have b2 : (x.importerShort == some "Andrea") = true := by rw [hx]; decide;
        have b3 : (x.importerShort == some "Enrico") = false := by rw [hx]; decide;
        have b4 : (x.importerShort == some "Pedro") = false := by rw [hx]; decide;
        simp only [List.filter_cons, b1, b2, b3, b4, List.length_cons, if_true, if_false]);
       (have b1 : (x.importerShort == some "Alessia") = false := by rw [hx]; decide;
        have b2 : (x.importerShort == some "Andrea") = false := by rw [hx]; decide;
        have b3 : (x.importerShort == some "Enrico") = true := by rw [hx]; decide;
        have b4 : (x.importerShort == some "Pedro") = false := by rw [hx]; decide;
        simp only [List.filter_cons, b1, b2, b3, b4, List.length_cons, if_true, if_false]);
       (have b1 : (x.importerShort == some "Alessia") = false := by rw [hx]; decide;
        have b2 : (x.importerShort == some "Andrea") = false := by rw [hx]; decide;
        have b3 : (x.importerShort == some "Enrico") = false := by rw [hx]; decide;
        have b4 : (x.importerShort == some "Pedro") = true := by rw [hx]; decide;
        simp only [List.filter_cons, b1, b2, b3, b4, List.length_cons, if_true, if_false])] <;>
      simp only [Bool.false_eq_true, if_false, List.length_cons] <;> omega

/-- Any survivor of the URL de-duplication has an unseen URL and is the
first entry of the input with its URL. -/
lemma dedupByUrl_mem :
    ∀ (l : List (String × String)) (seen : List String) (p : String × String),
      p ∈ dedupByUrl l seen →
      p.2 ∉ seen ∧ List.find? (fun q => q.2 == p.2) l = some p := by
  intro l
  induction l with
  | nil => intro seen p hp; simp [dedupByUrl] at hp
  | cons a t ih =>
    intro seen p hp
    unfold dedupByUrl at hp
    by_cases ha : a.2 ∈ seen
    · rw [if_pos ha] at hp
      obtain ⟨hs, hf⟩ := ih seen p hp
      have hne : (a.2 == p.2) = false :=
        beq_eq_false_iff_ne.mpr (fun he => hs (he ▸ ha))
      constructor
      · exact hs
      · rw [List.find?_cons, hne]
        exact hf
    · rw [if_neg ha] at hp
      rcases List.mem_cons.mp hp with rfl | hp'
      · refine ⟨ha, ?_⟩
        rw [List.find?_cons]
        have : (p.2 == p.2) = true := beq_self_eq_true _
        rw [this]
      · obtain ⟨hs, hf⟩ := ih (a.2 :: seen) p hp'
        have hpa : p.2 ≠ a.2 := fun he => hs (he ▸ List.mem_cons_self a.2 seen)
        refine ⟨fun hm => hs (List.mem_cons_of_mem _ hm), ?_⟩
        rw [List.find?_cons, beq_eq_false_iff_ne.mpr (fun he => hpa he.symm)]
        exact hf

/-- The de-duplicated list has pairwise distinct URLs. -/
lemma dedupByUrl_pairwise :
    ∀ (l : List (String × String)) (seen : List String),
      (dedupByUrl l seen).Pairwise (fun a b => a.2 ≠ b.2) := by
  intro l
  induction l with
  | nil => intro seen; simp [dedupByUrl]
  | cons a t ih =>
    intro seen
    unfold dedupByUrl
    by_cases ha : a.2 ∈ seen
    · rw [if_pos ha]; exact ih seen
    · rw [if_neg ha]
      refine List.Pairwise.cons ?_ (ih (a.2 :: seen))
      intro q hq
      have := (dedupByUrl_mem t (a.2 :: seen) q hq).1
      exact fun he => this (he ▸ List.mem_cons_self a.2 seen)

/-- Every pair produced by `facPre` comes from a facility row with
non-null name and URL. -/
lemma facPre_mem {df : List FilteredRow} {p : String × String} (hp : p ∈ facPre df) :
    ∃ r ∈ df, r.bl_cat = "Facility" ∧ r.ticketName = some p.1 ∧ r.url = some p.2 := by
  unfold facPre at hp
  obtain ⟨r, hr, hmk⟩ := List.mem_filterMap.mp hp
  obtain ⟨hrdf, hrcat⟩ := List.mem_filter.mp hr
  refine ⟨r, hrdf, of_decide_eq_true (by simpa using hrcat), ?_⟩
  cases hn : r.ticketName with
  | none => rw [hn] at hmk; exact absurd hmk (by simp)
  | some n =>
    cases hu : r.url with
    | none => rw [hn, hu] at hmk; exact absurd hmk (by simp)
    | some u =>
      rw [hn, hu] at hmk
      simp only [Option.some_inj] at hmk
      rw [← hmk]
      exact ⟨rfl, rfl⟩

/-! ### Sample data used by witnesses and counterexamples -/

/-- A raw row that passes every filter for reference date 2025-07-16. -/
def sampleRaw : RawRow :=
  ⟨some "u", some "T", some "Andrea Sergi", some "Complete - Auto", some "GIPO",
   some "Jul 09, 2025, 04:20:01 PM"⟩

/-- The reference date 2025-07-16 of the worked spec example. -/
def sampleRef : Int := daysFromCivil 2025 7 16

/-- The filtered row `load_and_filter [sampleRaw] sampleRef` produces. -/
def sampleOut : FilteredRow :=
  ⟨some "u", some "T", some "Andrea Sergi", some "Complete - Auto", some "GIPO",
   some (daysFromCivil 2025 7 9), "Facility", some "Andrea"⟩

example : load_and_filter [sampleRaw] sampleRef = [sampleOut] := by decide

/-! ### The claims -/

/-- C1: every row of the table returned by `load_and_filter` satisfies
all three filter predicates — its parsed Close Date lies within the
previous-week window inclusive of both ends, its Import Type starts with
"Complete" or "No Importation", and its Importer is one of the four
allow-listed full names; rows failing any predicate do not appear. -/
theorem C1_output_rows_satisfy_filters (df : List RawRow) (reference_date : Int)
    (r : FilteredRow) (h : r ∈ load_and_filter df reference_date) :
    (∃ d, r.closeDate = some d
        ∧ (previous_week_window reference_date).1 ≤ d
        ∧ d ≤ (previous_week_window reference_date).2)
    ∧ (∃ t, r.importType = some t
        ∧ (pyStartsWith t "Complete" = true ∨ pyStartsWith t "No Importation" = true))
    ∧ (∃ i, r.importer = some i ∧ i ∈ ALLOWED_IMPORTERS) := by
  obtain ⟨p, hP, hT, hI, rfl⟩ := mem_load_and_filter h
  obtain ⟨d, hd, hds, hde⟩ := mask_period_spec hP
  obtain ⟨t, ht, hts⟩ := mask_type_spec hT
  obtain ⟨i, hi, him⟩ := mask_imp_spec hI
  exact ⟨⟨d, hd, hds, hde⟩, ⟨t, ht, hts⟩, ⟨i, hi, him⟩⟩

/-- Witness for C1 at a concrete passing row. -/
theorem C1_witness :
    sampleOut ∈ load_and_filter [sampleRaw] sampleRef
    ∧ ((∃ d, sampleOut.closeDate = some d
          ∧ (previous_week_window sampleRef).1 ≤ d
          ∧ d ≤ (previous_week_window sampleRef).2)
      ∧ (∃ t, sampleOut.importType = some t
          ∧ (pyStartsWith t "Complete" = true ∨ pyStartsWith t "No Importation" = true))
      ∧ (∃ i, sampleOut.importer = some i ∧ i ∈ ALLOWED_IMPORTERS)) :=
  ⟨by decide, C1_output_rows_satisfy_filters [sampleRaw] sampleRef sampleOut (by decide)⟩

/-- C2: `previous_week_window` returns a pair whose start is a Monday,
equal to the Monday of the reference week minus 7 days, with the end six
days later; with the two concrete evaluations of the spec examples. -/
theorem C2_previous_week_window_correct :
    (∀ d : Int,
        (previous_week_window d).2 = (previous_week_window d).1 + 6
        ∧ weekday (previous_week_window d).1 = 0
        ∧ (previous_week_window d).1 = this_week_monday d - 7
        ∧ weekday (this_week_monday d) = 0
        ∧ this_week_monday d ≤ d ∧ d < this_week_monday d + 7)
    ∧ previous_week_window (daysFromCivil 2025 7 16)
        = (daysFromCivil 2025 7 7, daysFromCivil 2025 7 13)
    ∧ previous_week_window (daysFromCivil 2025 7 14)
        = (daysFromCivil 2025 7 7, daysFromCivil 2025 7 13) := by
  refine ⟨fun d => ?_, by decide, by decide⟩
  have h : previous_week_window d = (this_week_monday d - 7, this_week_monday d - 7 + 6) := rfl
  rw [h]
  unfold this_week_monday weekday
  refine ⟨rfl, by omega, rfl, by omega, by omega, by omega⟩

/-- C3 (amended): re-applying the filtering stage to its own output,
restricted to the six kept columns with the Close Date carried through
as the already-parsed calendar date, returns the same rows. -/
theorem C3_amended_filter_idempotent (df : List RawRow) (reference_date : Int) :
    filter_stage ((load_and_filter df reference_date).map toParsed) reference_date
      = load_and_filter df reference_date := by
  unfold load_and_filter filter_stage
  simp only [List.map_map]
  have hid : toParsed ∘ finalizeRow = id := funext (fun p => rfl)
  rw [hid, List.map_id, List.filter_filter]
  congr 1
  apply List.filter_congr
  intro x _
  rw [Bool.and_self]

/-- Counterexample to C3 as stated: re-applying `load_and_filter` itself
to its own output (the six kept columns as the second pass would read
them, the parsed dates rendered by `str()` in ISO format) does not yield
the same set of rows — the ISO strings fail the fixed-format parse, so
the second pass returns the empty table. -/
theorem C3_counterexample :
    load_and_filter ((load_and_filter [sampleRaw] sampleRef).map toRawStr) sampleRef
      ≠ load_and_filter [sampleRaw] sampleRef := by decide

/-- C5: `business_line_cat` is total, and after trimming and
lower-casing maps the four facility labels to "Facility" and every
other string (the two individual labels and anything else, the empty
string included) to "Individual"; with the two concrete evaluations. -/
theorem C5_business_line_cat_total :
    (∀ s : String,
        (business_line_cat s = "Facility" ∨ business_line_cat s = "Individual")
        ∧ (pyLower (pyStrip s) ∈ (["gp gruppi", "gipo", "dp phone", "clinic agenda"] : List String) →
            business_line_cat s = "Facility")
        ∧ (pyLower (pyStrip s) ∉ (["gp gruppi", "gipo", "dp phone", "clinic agenda"] : List String) →
            business_line_cat s = "Individual"))
    ∧ business_line_cat "  GIPO " = "Facility"
    ∧ business_line_cat "" = "Individual" := by
  refine ⟨fun s => ⟨business_line_cat_two s, ?_, ?_⟩, by decide, by decide⟩
  · intro hmem
    rw [business_line_cat_eq, if_pos (by simpa using hmem)]
  · intro hnot
    rw [business_line_cat_eq, if_neg (fun hc => hnot (by simpa using hc))]

/-- Witness for C5 at concrete labels on both sides of the lookup. -/
theorem C5_witness :
    (pyLower (pyStrip " Clinic Agenda ") ∈ (["gp gruppi", "gipo", "dp phone", "clinic agenda"] : List String)
      ∧ business_line_cat " Clinic Agenda " = "Facility")
    ∧ (pyLower (pyStrip "unknown-thing") ∉ (["gp gruppi", "gipo", "dp phone", "clinic agenda"] : List String)
      ∧ business_line_cat "unknown-thing" = "Individual") :=
  ⟨⟨by decide, (C5_business_line_cat_total.1 " Clinic Agenda ").2.1 (by decide)⟩,
   ⟨by decide, (C5_business_line_cat_total.1 "unknown-thing").2.2 (by decide)⟩⟩

set_option maxRecDepth 100000 in
/-- C7: an input table with zero rows filters to zero rows without
failing, and the report over the empty table has total 0, Facility 0,
Individual 0, all four importer counts 0, and the placeholder sentence
in both the plain and the HTML outputs. -/
theorem C7_empty_input_report :
    (∀ reference_date : Int, load_and_filter [] reference_date = [])
    ∧ tot_total [] = 0 ∧ facilityCount [] = 0 ∧ individualCount [] = 0
    ∧ impCount [] "Alessia" = 0 ∧ impCount [] "Andrea" = 0
    ∧ impCount [] "Enrico" = 0 ∧ impCount [] "Pedro" = 0
    ∧ containsStr "Nessuna facility questa settimana" (build_messages []).1 = true
    ∧ containsStr "Nessuna facility questa settimana" (build_messages []).2 = true :=
  ⟨fun _ => rfl, rfl, rfl, rfl, rfl, rfl, rfl, rfl, by decide, by decide⟩

/-- C8: a row whose Close Date fails the fixed-format parse does not
make `load_and_filter` fail — its date parses to null, the row is kept
through the parse step, the null date fails every window predicate, and
the row contributes nothing to the output. -/
theorem C8_unparseable_date_excluded (df1 df2 : List RawRow) (reference_date : Int)
    (r : RawRow) (h : parseCloseDateCell r.closeDate = none) :
    (parseRow r).closeDate = none
    ∧ (df1 ++ r :: df2).map parseRow = df1.map parseRow ++ parseRow r :: df2.map parseRow
    ∧ (∀ s e : Int, mask_period s e (parseRow r) = false)
    ∧ load_and_filter (df1 ++ r :: df2) reference_date
        = load_and_filter (df1 ++ df2) reference_date := by
  have hcd : (parseRow r).closeDate = none := h
  have hmp : ∀ s e : Int, mask_period s e (parseRow r) = false := by
    intro s e
    unfold mask_period
    rw [hcd]
  refine ⟨hcd, by simp, hmp, ?_⟩
  unfold load_and_filter filter_stage
  simp [List.filter_append, List.filter_cons, hmp]

/-- Witness for C8 at a concrete malformed date string. -/
theorem C8_witness :
    parseCloseDateCell (RawRow.closeDate ⟨none, none, none, none, none, some "garbage"⟩) = none
    ∧ ((parseRow ⟨none, none, none, none, none, some "garbage"⟩).closeDate = none
      ∧ ([] ++ (⟨none, none, none, none, none, some "garbage"⟩ : RawRow) :: []).map parseRow
          = [].map parseRow ++ parseRow ⟨none, none, none, none, none, some "garbage"⟩ :: [].map parseRow
      ∧ (∀ s e : Int, mask_period s e (parseRow ⟨none, none, none, none, none, some "garbage"⟩) = false)
      ∧ load_and_filter ([] ++ (⟨none, none, none, none, none, some "garbage"⟩ : RawRow) :: []) 0
          = load_and_filter ([] ++ []) 0) :=
  ⟨by decide, C8_unparseable_date_excluded [] [] 0 ⟨none, none, none, none, none, some "garbage"⟩ (by decide)⟩

/-- C4: over any filtered table, the Facility and Individual counts sum
to the total row count, and the four per-alias importer counts sum to
the total row count (absent categories and aliases counting zero). -/
theorem C4_counts_partition (df : List RawRow) (reference_date : Int) :
    facilityCount (load_and_filter df reference_date)
        + individualCount (load_and_filter df reference_date)
      = tot_total (load_and_filter df reference_date)
    ∧ impCount (load_and_filter df reference_date) "Alessia"
        + impCount (load_and_filter df reference_date) "Andrea"
        + impCount (load_and_filter df reference_date) "Enrico"
        + impCount (load_and_filter df reference_date) "Pedro"
      = tot_total (load_and_filter df reference_date) :=
  ⟨two_filter_length _ (fun _ hr => out_bl_cat hr),
   four_filter_length _ (fun _ hr => out_importerShort hr)⟩

/-- C6: the facility link list contains (Ticket Name, URL) pairs only
for facility rows with both fields non-null, has pairwise distinct URLs,
is sorted by Ticket Name ascending, and each kept pair is the first
occurrence of its URL in table order. -/
theorem C6_facility_link_list (df : List FilteredRow) :
    (∀ p ∈ fac_df df, ∃ r ∈ df, r.bl_cat = "Facility"
        ∧ r.ticketName = some p.1 ∧ r.url = some p.2)
    ∧ (fac_df df).Pairwise (fun a b => a.2 ≠ b.2)
    ∧ (fac_df df).Pairwise (fun a b => a.1 ≤ b.1)
    ∧ (∀ p ∈ fac_df df, List.find? (fun q => q.2 == p.2) (facPre df) = some p) := by
  have hperm : (fac_df df).Perm (dedupByUrl (facPre df) []) :=
    List.perm_insertionSort _ _
  have hsub : ∀ p ∈ fac_df df, p ∈ dedupByUrl (facPre df) [] :=
    fun p hp => hperm.mem_iff.mp hp
  refine ⟨?_, ?_, ?_, ?_⟩
  · intro p hp
    have hfind := (dedupByUrl_mem _ _ _ (hsub p hp)).2
    exact facPre_mem (List.mem_of_find?_eq_some hfind)
  · exact (List.Perm.pairwise_iff (fun hxy => Ne.symm hxy) hperm).mpr
      (dedupByUrl_pairwise _ _)
  · haveI : IsTotal (String × String) (fun a b => a.1 ≤ b.1) :=
      ⟨fun a b => le_total a.1 b.1⟩
    haveI : IsTrans (String × String) (fun a b => a.1 ≤ b.1) :=
      ⟨fun _ _ _ hab hbc => le_trans hab hbc⟩
    exact List.sorted_insertionSort _ _
  · intro p hp
    exact (dedupByUrl_mem _ _ _ (hsub p hp)).2

/-- Witness for C6 at a concrete one-row facility table. -/
theorem C6_witness :
    ("T", "u") ∈ fac_df [sampleOut]
    ∧ (∃ r ∈ [sampleOut], r.bl_cat = "Facility"
        ∧ r.ticketName = some ("T", "u").1 ∧ r.url = some ("T", "u").2) :=
  ⟨by decide, (C6_facility_link_list [sampleOut]).1 ("T", "u") (by decide)⟩

/-- C9: the importer allow-list is exactly the key set of the alias map,
and every output row's ImporterShort is non-null and one of the four
aliases (so the missing-alias branch is unreachable on filtered rows). -/
theorem C9_alias_map_covers_allow_list :
    (∀ n ∈ ALLOWED_IMPORTERS, ∃ a, IMPORTER_SHORT.lookup n = some a
        ∧ a ∈ (["Alessia", "Andrea", "Enrico", "Pedro"] : List String))
    ∧ (∀ n a, IMPORTER_SHORT.lookup n = some a → n ∈ ALLOWED_IMPORTERS)
    ∧ (∀ (df : List RawRow) (reference_date : Int) (r : FilteredRow),
        r ∈ load_and_filter df reference_date →
        ∃ a, r.importerShort = some a
          ∧ a ∈ (["Alessia", "Andrea", "Enrico", "Pedro"] : List String)) := by
  refine ⟨?_, ?_, ?_⟩
  · intro n hn
    simp only [ALLOWED_IMPORTERS, List.mem_cons, List.not_mem_nil, or_false] at hn
    rcases hn with rfl | rfl | rfl | rfl
    · exact ⟨"Andrea", by decide, by decide⟩
    · exact ⟨"Enrico", by decide, by decide⟩
    · exact ⟨"Alessia", by decide, by decide⟩
    · exact ⟨"Pedro", by decide, by decide⟩
  · intro n a hla
    by_cases h1 : n = "Alessia Pellegrino"
    · subst h1; decide
    by_cases h2 : n = "Andrea Sergi"
    · subst h2; decide
    by_cases h3 : n = "Enrico Radaelli"
    · subst h3; decide
    by_cases h4 : n = "Andrea Pedroli"
    · subst h4; decide
    exfalso
    have e1 : (n == "Alessia Pellegrino") = false := beq_eq_false_iff_ne.mpr h1
    have e2 : (n == "Andrea Sergi") = false := beq_eq_false_iff_ne.mpr h2
    have e3 : (n == "Enrico Radaelli") = false := beq_eq_false_iff_ne.mpr h3
    have e4 : (n == "Andrea Pedroli") = false := beq_eq_false_iff_ne.mpr h4
    simp [IMPORTER_SHORT, List.lookup, e1, e2, e3, e4] at hla
  · intro df reference_date r hr
    rcases out_importerShort hr with hs | hs | hs | hs
    · exact ⟨"Alessia", hs, by decide⟩
    · exact ⟨"Andrea", hs, by decide⟩
    · exact ⟨"Enrico", hs, by decide⟩
    · exact ⟨"Pedro", hs, by decide⟩

/-- Witness for C9 at a concrete output row. -/
theorem C9_witness :
    sampleOut ∈ load_and_filter [sampleRaw] sampleRef
    ∧ (∃ a, sampleOut.importerShort = some a
        ∧ a ∈ (["Alessia", "Andrea", "Enrico", "Pedro"] : List String)) :=
  ⟨by decide,
   C9_alias_map_covers_allow_list.2.2 [sampleRaw] sampleRef sampleOut (by decide)⟩

/-- Reading any index below the original heap size is unaffected by the
allocations and copy-local writes `load_and_filter_heap` performs. -/
lemma heap_frame_preserved (h : Heap) (A B C D E F : Frame) (i : Nat)
    (hi : i < h.length) :
    (((((h ++ [A] ++ [B]).set (h ++ [A]).length C) ++ [D]).set
        ((h ++ [A] ++ [B]).set (h ++ [A]).length C).length E).set
        ((h ++ [A] ++ [B]).set (h ++ [A]).length C).length F)[i]? = h[i]? := by
  have hL1 : (h ++ [A]).length = h.length + 1 := by simp
  have hL3 : ((h ++ [A] ++ [B]).set (h ++ [A]).length C).length = h.length + 2 := by
    simp [List.length_set]
  rw [hL3]
  rw [List.getElem?_set_ne (show h.length + 2 ≠ i from by omega)]
  rw [List.getElem?_set_ne (show h.length + 2 ≠ i from by omega)]
  rw [List.getElem?_append, hL3, if_pos (show i < h.length + 2 from by omega)]
  rw [List.getElem?_set_ne (show (h ++ [A]).length ≠ i from by rw [hL1]; omega)]
  rw [List.getElem?_append, if_pos (show i < (h ++ [A]).length from by rw [hL1]; omega)]
  rw [List.getElem?_append, if_pos hi]

/-- The reference returned by the heap-level filter points past every
pre-existing frame. -/
lemma heap_result_fresh (h : Heap) (A B C : Frame) :
    h.length ≤ ((h ++ [A] ++ [B]).set (h ++ [A]).length C).length := by
  simp [List.length_set]

/-- C10: `load_and_filter` does not mutate its caller's dataframe — the
frame the caller's reference points to is unchanged by the call — and
the returned reference is freshly allocated (past the original heap). -/
theorem C10_no_input_mutation (h : Heap) (df : Nat) (d : Int)
    (hdf : df < Heap.size h) :
    Heap.read (load_and_filter_heap h df d).1 df = Heap.read h df
    ∧ Heap.size h ≤ (load_and_filter_heap h df d).2 :=
  ⟨heap_frame_preserved h _ _ _ _ _ _ df hdf, heap_result_fresh h _ _ _⟩

/-- Witness for C10 at a concrete one-frame heap. -/
theorem C10_witness :
    0 < Heap.size [[("Url", [Cell.str "u"])]]
    ∧ (Heap.read (load_and_filter_heap [[("Url", [Cell.str "u"])]] 0 0).1 0
        = Heap.read [[("Url", [Cell.str "u"])]] 0
      ∧ Heap.size [[("Url", [Cell.str "u"])]]
        ≤ (load_and_filter_heap [[("Url", [Cell.str "u"])]] 0 0).2) :=
  ⟨by decide, C10_no_input_mutation [[("Url", [Cell.str "u"])]] 0 0 (by decide)⟩

end ImportReport
